import Mathlib

/-!
Shallow embedding of the `TrafficDePINReFiFHE` Solidity contract
(confidential batch aggregation with a decryption-oracle callback).

Modelling conventions:
* `uint256` values are `Nat`; Solidity 0.8 checked arithmetic is embedded
  explicitly: an addition whose mathematical result would reach `2 ^ 256`
  reverts with `Err.Panic` (the arithmetic-overflow panic).
* `bytes32` ciphertext handles (`euint32` handles, `FHE.toBytes32`) are
  opaque `Nat`s.
* `keccak256(abi.encode(cts, address(this)))` is modelled by the free
  constructor `HashVal.keccakEnc cts addr`: the hash is treated as an
  injective function that never collides with the all-zero `bytes32`
  (the default storage value), the standard idealization.
* The external FHE co-processor (`FHE.add`, `FHE.isInitialized`,
  `FHE.requestDecryption`, `FHE.checkSignatures`, `abi.decode` of the
  cleartexts) is an opaque environment `Env`; theorems quantify over it.
* Each external entry point is a function from `msg.sender`,
  `block.timestamp`, the contract state and the call arguments to
  `Except Err (ContractState × List Event)`: a revert (`Except.error`)
  produces no new state, which models Solidity's all-or-nothing rollback.
* Solidity `mapping`s are total functions with the zero default, as in
  the EVM.
-/

namespace TrafficDePIN

abbrev Address := Nat

abbrev Bytes := List Nat

def MAXU : Nat := 2 ^ 256

/-- Pointwise update of a mapping, as a Solidity storage write. -/
def upd (f : Nat → α) (k : Nat) (v : α) : Nat → α :=
  fun x => if x = k then v else f x

/-- The contract's failure modes: the nine declared custom errors, the
generic string reverts produced by `require`/`revert("...")`, and the
checked-arithmetic overflow panic. -/
inductive Err where
  | NotOwner
  | NotProvider
  | Paused
  | CooldownActive
  | BatchNotOpen
  | InvalidBatchId
  | ReplayAttempt
  | StateMismatch
  | InvalidProof
  | RevertMsg (msg : String)
  | Panic
deriving DecidableEq, Repr

/-- A `bytes32` that is either the zero default or the keccak hash of
`abi.encode(cts, addr)` (see `_hashCiphertexts` in the source). -/
inductive HashVal where
  | zero
  | keccakEnc (cts : List Nat) (addr : Address)
deriving DecidableEq, Repr

/-- The contract's emitted events. -/
inductive Event where
  | OwnershipTransferred (previousOwner newOwner : Address)
  | ProviderAdded (provider : Address)
  | ProviderRemoved (provider : Address)
  | ContractPaused (account : Address)
  | ContractUnpaused (account : Address)
  | CooldownSecondsUpdated (oldCooldown newCooldown : Nat)
  | BatchOpened (batchId : Nat)
  | BatchClosed (batchId : Nat)
  | DataSubmitted (provider : Address) (batchId : Nat)
  | DecryptionRequested (requestId batchId : Nat)
  | DecryptionCompleted (requestId batchId totalCongestionScore totalEcoScore : Nat)
deriving DecidableEq, Repr

/-- `struct Batch`. -/
structure Batch where
  id : Nat
  isOpen : Bool
  totalEncryptedCongestionScore : Nat
  totalEncryptedEcoScore : Nat
  submissionCount : Nat
deriving DecidableEq, Repr

/-- `struct DecryptionContext`. -/
structure DecryptionContext where
  batchId : Nat
  stateHash : HashVal
  processed : Bool
deriving DecidableEq, Repr

/-- The zero value a Solidity mapping yields for a never-written key. -/
def emptyContext : DecryptionContext :=
  { batchId := 0, stateHash := HashVal.zero, processed := false }

/-- The contract's storage. -/
structure ContractState where
  owner : Address
  isProvider : Address → Bool
  paused : Bool
  cooldownSeconds : Nat
  lastSubmissionTime : Address → Nat
  lastDecryptionRequestTime : Address → Nat
  currentBatch : Batch
  decryptionContexts : Nat → DecryptionContext

/-- The opaque external capabilities (FHE co-processor and ABI codec). -/
structure Env where
  thisAddr : Address
  fheAdd : Nat → Nat → Nat
  isInit : Nat → Bool
  reqDecr : List Nat → Nat
  checkSig : Nat → Bytes → Bytes → Bool
  decode2 : Bytes → Nat × Nat

/-- `_hashCiphertexts`: `keccak256(abi.encode(cts, address(this)))`. -/
def hashCiphertexts (thisAddr : Address) (cts : List Nat) : HashVal :=
  HashVal.keccakEnc cts thisAddr

/-- The constructor: owner = deployer, cooldown 60 s, batch 1 closed. -/
def initialState (deployer : Address) : ContractState :=
  { owner := deployer
    isProvider := fun _ => false
    paused := false
    cooldownSeconds := 60
    lastSubmissionTime := fun _ => 0
    lastDecryptionRequestTime := fun _ => 0
    currentBatch := { id := 1, isOpen := false,
                      totalEncryptedCongestionScore := 0,
                      totalEncryptedEcoScore := 0, submissionCount := 0 }
    decryptionContexts := fun _ => emptyContext }

/-- `transferOwnership` (`onlyOwner`). -/
def transferOwnership (sender newOwner : Address) (s : ContractState) :
    Except Err (ContractState × List Event) :=
  if sender ≠ s.owner then .error .NotOwner
  else .ok ({ s with owner := newOwner },
            [Event.OwnershipTransferred s.owner newOwner])

/-- `addProvider` (`onlyOwner`): flips the flag and emits only when the
provider was not yet authorized. -/
def addProvider (sender provider : Address) (s : ContractState) :
    Except Err (ContractState × List Event) :=
  if sender ≠ s.owner then .error .NotOwner
  else if s.isProvider provider then .ok (s, [])
  else .ok ({ s with isProvider := upd s.isProvider provider true },
            [Event.ProviderAdded provider])

/-- `removeProvider` (`onlyOwner`): flips the flag and emits only when the
provider was authorized. -/
def removeProvider (sender provider : Address) (s : ContractState) :
    Except Err (ContractState × List Event) :=
  if sender ≠ s.owner then .error .NotOwner
  else if s.isProvider provider then
    .ok ({ s with isProvider := upd s.isProvider provider false },
         [Event.ProviderRemoved provider])
  else .ok (s, [])

/-- `pause` (`onlyOwner whenNotPaused`). -/
def pause (sender : Address) (s : ContractState) :
    Except Err (ContractState × List Event) :=
  if sender ≠ s.owner then .error .NotOwner
  else if s.paused then .error .Paused
  else .ok ({ s with paused := true }, [Event.ContractPaused sender])

/-- `unpause` (`onlyOwner`, no pause guard). -/
def unpause (sender : Address) (s : ContractState) :
    Except Err (ContractState × List Event) :=
  if sender ≠ s.owner then .error .NotOwner
  else .ok ({ s with paused := false }, [Event.ContractUnpaused sender])

/-- `setCooldownSeconds` (`onlyOwner`), `require(newCooldownSeconds > 0,
"Cooldown must be positive")`. -/
def setCooldownSeconds (sender : Address) (newCooldownSeconds : Nat)
    (s : ContractState) : Except Err (ContractState × List Event) :=
  if sender ≠ s.owner then .error .NotOwner
  else if newCooldownSeconds = 0 then
    .error (.RevertMsg (r"Cooldown must be positive"))
  else .ok ({ s with cooldownSeconds := newCooldownSeconds },
            [Event.CooldownSecondsUpdated s.cooldownSeconds newCooldownSeconds])

/-- `openBatch` (`onlyOwner whenNotPaused`): closes the current batch first
when it is open (emitting `BatchClosed`), then installs a fresh batch with
incremented id, zeroed aggregates and counter, emitting `BatchOpened`. -/
def openBatch (sender : Address) (s : ContractState) :
    Except Err (ContractState × List Event) :=
  if sender ≠ s.owner then .error .NotOwner
  else if s.paused then .error .Paused
  else if s.currentBatch.id + 1 ≥ MAXU then .error .Panic
  else
    let closeEvs : List Event :=
      if s.currentBatch.isOpen then [Event.BatchClosed s.currentBatch.id] else []
    let newBatch : Batch :=
      { id := s.currentBatch.id + 1, isOpen := true,
        totalEncryptedCongestionScore := 0, totalEncryptedEcoScore := 0,
        submissionCount := 0 }
    .ok ({ s with currentBatch := newBatch },
         closeEvs ++ [Event.BatchOpened (s.currentBatch.id + 1)])

/-- `closeBatch` (`onlyOwner whenNotPaused`). -/
def closeBatch (sender : Address) (s : ContractState) :
    Except Err (ContractState × List Event) :=
  if sender ≠ s.owner then .error .NotOwner
  else if s.paused then .error .Paused
  else if !s.currentBatch.isOpen then .error .BatchNotOpen
  else .ok ({ s with currentBatch := { s.currentBatch with isOpen := false } },
            [Event.BatchClosed s.currentBatch.id])

/-- `submitData` (`onlyProvider whenNotPaused submissionRateLimited`).
The `onlyProvider` modifier records `lastSubmissionTime[msg.sender] =
block.timestamp` after its body, so the record happens only when the
whole call succeeds. -/
def submitData (env : Env) (sender : Address) (ts : Nat) (s : ContractState)
    (encryptedCongestionScore encryptedEcoScore : Nat) :
    Except Err (ContractState × List Event) :=
  if !s.isProvider sender then .error .NotProvider
  else if s.paused then .error .Paused
  else if s.lastSubmissionTime sender + s.cooldownSeconds ≥ MAXU then .error .Panic
  else if ts < s.lastSubmissionTime sender + s.cooldownSeconds then
    .error .CooldownActive
  else if !s.currentBatch.isOpen then .error .BatchNotOpen
  else if !env.isInit encryptedCongestionScore then
    .error (.RevertMsg (r"Congestion score not initialized"))
  else if !env.isInit encryptedEcoScore then
    .error (.RevertMsg (r"Eco score not initialized"))
  else if s.currentBatch.submissionCount + 1 ≥ MAXU then .error .Panic
  else
    let b := s.currentBatch
    let b1 : Batch :=
      { b with
        totalEncryptedCongestionScore := (env.fheAdd
          b.totalEncryptedCongestionScore encryptedCongestionScore),
        totalEncryptedEcoScore := (env.fheAdd
          b.totalEncryptedEcoScore encryptedEcoScore),
        submissionCount := b.submissionCount + 1 }
    let s1 := { s with currentBatch := b1 }
    let s2 := { s1 with lastSubmissionTime := upd s1.lastSubmissionTime sender ts }
    .ok (s2, [Event.DataSubmitted sender b.id])

/-- `requestBatchDecryption` (`onlyOwner whenNotPaused
decryptionRateLimited`): freezes the two aggregate handles, hashes them
together with `address(this)`, asks the oracle for a `requestId`, and
stores an unprocessed `DecryptionContext`. The `decryptionRateLimited`
modifier records `lastDecryptionRequestTime` after its body. -/
def requestBatchDecryption (env : Env) (sender : Address) (ts : Nat)
    (s : ContractState) : Except Err (ContractState × List Event) :=
  if sender ≠ s.owner then .error .NotOwner
  else if s.paused then .error .Paused
  else if s.lastDecryptionRequestTime sender + s.cooldownSeconds ≥ MAXU then
    .error .Panic
  else if ts < s.lastDecryptionRequestTime sender + s.cooldownSeconds then
    .error .CooldownActive
  else if s.currentBatch.isOpen then .error .BatchNotOpen
  else if s.currentBatch.submissionCount = 0 then
    .error (.RevertMsg (r"No data to decrypt"))
  else
    let cts : List Nat :=
      [s.currentBatch.totalEncryptedCongestionScore,
       s.currentBatch.totalEncryptedEcoScore]
    let stateHash := hashCiphertexts env.thisAddr cts
    let requestId := env.reqDecr cts
    let s1 :=
      { s with decryptionContexts := (upd s.decryptionContexts requestId
          { batchId := s.currentBatch.id, stateHash := stateHash,
            processed := false }) }
    let s2 :=
      { s1 with lastDecryptionRequestTime := (upd
          s1.lastDecryptionRequestTime sender ts) }
    .ok (s2, [Event.DecryptionRequested requestId s.currentBatch.id])

/-- `myCallback(requestId, cleartexts, proof)`: a `public` function with no
modifier, so `sender` (msg.sender) is accepted unconditionally and unused.
Checks, in order: nonzero request id, replay, batch id, state hash, then
`FHE.checkSignatures` (failure caught and turned into `InvalidProof`);
on success decodes the cleartexts, marks the context processed and emits
`DecryptionCompleted`. -/
def myCallback (env : Env) (sender : Address) (s : ContractState)
    (requestId : Nat) (cleartexts proof : Bytes) :
    Except Err (ContractState × List Event) :=
  if requestId = 0 then .error (.RevertMsg (r"Invalid request ID"))
  else
    let ctx := s.decryptionContexts requestId
    if ctx.processed then .error .ReplayAttempt
    else if s.currentBatch.id ≠ ctx.batchId then .error .InvalidBatchId
    else
      let cts : List Nat :=
        [s.currentBatch.totalEncryptedCongestionScore,
         s.currentBatch.totalEncryptedEcoScore]
      let currentHash := hashCiphertexts env.thisAddr cts
      if currentHash ≠ ctx.stateHash then .error .StateMismatch
      else if env.checkSig requestId cleartexts proof then
        let c := env.decode2 cleartexts
        let s1 :=
          { s with decryptionContexts := (upd s.decryptionContexts
              requestId { ctx with processed := true }) }
        .ok (s1, [Event.DecryptionCompleted requestId ctx.batchId c.1 c.2])
      else .error .InvalidProof

/-- The two aggregate ciphertext handles of the current batch, in the order
`requestBatchDecryption` and `myCallback` place them in `cts`. -/
def handlesOf (s : ContractState) : List Nat :=
  [s.currentBatch.totalEncryptedCongestionScore,
   s.currentBatch.totalEncryptedEcoScore]

/-- The state `requestBatchDecryption` leaves behind on success: the new
unprocessed context keyed by the oracle's request id, plus the
decryption-class cooldown record. -/
def stateAfterRequest (env : Env) (sender : Address) (ts : Nat)
    (s : ContractState) : ContractState :=
  { s with
    decryptionContexts := (upd s.decryptionContexts (env.reqDecr (handlesOf s))
      { batchId := s.currentBatch.id,
        stateHash := hashCiphertexts env.thisAddr (handlesOf s),
        processed := false }),
    lastDecryptionRequestTime := (upd s.lastDecryptionRequestTime sender ts) }

/-! Concrete fixtures used by witnesses and counterexamples. -/

/-- A concrete environment: instance address 7, an arbitrary opaque
aggregation, every handle initialized, request id 5, signatures accepted,
cleartexts decoding to `(10, 6)`. -/
def wEnv : Env :=
  { thisAddr := 7
    fheAdd := fun a b => a + b + 1
    isInit := fun _ => true
    reqDecr := fun _ => 5
    checkSig := fun _ _ _ => true
    decode2 := fun _ => (10, 6) }

/-- Like `wEnv` but no handle counts as initialized. -/
def wEnvNoInit : Env := { wEnv with isInit := fun _ => false }

/-- Owner 1, provider 3, closed batch 2 holding aggregates `10`/`20` from
three submissions. -/
def wS0 : ContractState :=
  { owner := 1
    isProvider := fun a => a == 3
    paused := false
    cooldownSeconds := 60
    lastSubmissionTime := fun _ => 0
    lastDecryptionRequestTime := fun _ => 0
    currentBatch := ⟨2, false, 10, 20, 3⟩
    decryptionContexts := fun _ => emptyContext }

/-- `wS0` after the owner requested decryption at time 100. -/
def wS1 : ContractState := stateAfterRequest wEnv 1 100 wS0

/-- `wS1` after a successful callback marked request 5 processed. -/
def wS1Proc : ContractState :=
  { wS1 with decryptionContexts := (upd wS1.decryptionContexts 5
      { batchId := 2, stateHash := hashCiphertexts 7 [10, 20],
        processed := true }) }

/-- `wS1` with the congestion aggregate tampered from 10 to 11 between
request and callback. -/
def wS1Mut : ContractState :=
  { wS1 with currentBatch := ⟨2, false, 11, 20, 3⟩ }

/-- Owner 1, provider 3 with a submission recorded at time 40, open
batch 2 with three submissions. -/
def wSubS : ContractState :=
  { owner := 1
    isProvider := fun a => a == 3
    paused := false
    cooldownSeconds := 60
    lastSubmissionTime := fun _ => 40
    lastDecryptionRequestTime := fun _ => 0
    currentBatch := ⟨2, true, 10, 20, 3⟩
    decryptionContexts := fun _ => emptyContext }

/-- The freshly deployed contract with the pause flag set. -/
def wPausedS : ContractState := { initialState 1 with paused := true }

/-- An open batch 2 with five submissions, for the double-open scenario. -/
def wOpenS : ContractState :=
  { initialState 1 with currentBatch := ⟨2, true, 0, 0, 5⟩ }

/-- `wOpenS` after one `openBatch`. -/
def wOpenA : ContractState :=
  { wOpenS with currentBatch := ⟨3, true, 0, 0, 0⟩ }

/-- `wOpenS` after two `openBatch` calls. -/
def wOpenB : ContractState :=
  { wOpenS with currentBatch := ⟨4, true, 0, 0, 0⟩ }

/-- The freshly deployed contract after one `openBatch`. -/
def wOpen1 : ContractState :=
  { initialState 1 with currentBatch := ⟨2, true, 0, 0, 0⟩ }

/-- The freshly deployed contract after two `openBatch` calls. -/
def wOpen2 : ContractState :=
  { initialState 1 with currentBatch := ⟨3, true, 0, 0, 0⟩ }

/-! Claim theorems. -/

/-- C10: `addProvider` and `removeProvider` are idempotent — when the
principal is already in the desired state the call succeeds with the state
unchanged and no event; only a true flip of the flag emits
`ProviderAdded` / `ProviderRemoved` respectively. -/
theorem providerToggle (sender p : Address) (s : ContractState)
    (hown : sender = s.owner) :
    (s.isProvider p = true → addProvider sender p s = .ok (s, [])) ∧
    (s.isProvider p = false → addProvider sender p s =
      .ok ({ s with isProvider := (upd s.isProvider p true) },
           [Event.ProviderAdded p])) ∧
    (s.isProvider p = false → removeProvider sender p s = .ok (s, [])) ∧
    (s.isProvider p = true → removeProvider sender p s =
      .ok ({ s with isProvider := (upd s.isProvider p false) },
           [Event.ProviderRemoved p])) := by
  subst hown
  refine ⟨fun h => ?_, fun h => ?_, fun h => ?_, fun h => ?_⟩ <;>
    simp [addProvider, removeProvider, h]

/-- Witness for C10: on `wSubS`, re-adding provider 3 and re-removing the
non-provider 4 are both no-ops returning the unchanged state and no
events. -/
theorem providerToggle_witness :
    addProvider 1 3 wSubS = .ok (wSubS, []) ∧
    removeProvider 1 4 wSubS = .ok (wSubS, []) := by
  have h3 := providerToggle 1 3 wSubS rfl
  have h4 := providerToggle 1 4 wSubS rfl
  exact ⟨h3.1 rfl, h4.2.2.1 rfl⟩

/-- C9 counterexample: on the already-paused state, `pause` reverts with
the contract's error `Paused` — the contract declares no `AlreadyPaused`
error, so the claim's error name is wrong. -/
theorem pauseAlreadyPaused_cex : pause 1 wPausedS = .error Err.Paused := rfl

/-- C9 (amended): `pause()` by the administrator fails with the error
`Paused` (not `AlreadyPaused`, which does not exist) when the pause flag
is already set, while `unpause()` has no guard: it always succeeds,
clears the flag (even when already unpaused) and emits
`ContractUnpaused`. -/
theorem pauseGuardUnpauseUnguarded (sender : Address) (s : ContractState)
    (hown : sender = s.owner) :
    (s.paused = true → pause sender s = .error Err.Paused) ∧
    unpause sender s =
      .ok ({ s with paused := false }, [Event.ContractUnpaused sender]) := by
  subst hown
  constructor
  · intro h; simp [pause, h]
  · simp [unpause]

/-- Witness for C9: instantiated on the paused fixture. -/
theorem pauseGuardUnpauseUnguarded_witness :
    pause 1 wPausedS = .error Err.Paused ∧
    unpause 1 wPausedS =
      .ok ({ wPausedS with paused := false }, [Event.ContractUnpaused 1]) := by
  have h := pauseGuardUnpauseUnguarded 1 wPausedS rfl
  exact ⟨h.1 rfl, h.2⟩

/-- C8 counterexample: a non-positive cooldown is rejected by a generic
string revert (`require` message), not by a typed `InvalidCooldown`
error — no such error exists in the contract. -/
theorem invalidCooldown_cex :
    setCooldownSeconds 1 0 (initialState 1) =
      .error (.RevertMsg (r"Cooldown must be positive")) := rfl

/-- C8 (amended): the contract's failures are typed custom errors except
four generic string reverts: non-positive cooldown
("Cooldown must be positive"), uninitialized ciphertext handles
("Congestion score not initialized" / "Eco score not initialized"),
no data to decrypt ("No data to decrypt"), and a zero callback request id
("Invalid request ID"). No `InvalidCooldown`, `InvalidCiphertext` or
`NoDataToDecrypt` typed errors exist. -/
theorem untypedStringReverts (env : Env) (adm prov sender : Address)
    (ts : Nat) (s : ContractState) (cl pf : Bytes)
    (hown : adm = s.owner) (hp : s.paused = false)
    (hprov : s.isProvider prov = true)
    (hsubov : s.lastSubmissionTime prov + s.cooldownSeconds < MAXU)
    (hsub : s.lastSubmissionTime prov + s.cooldownSeconds ≤ ts)
    (hdecov : s.lastDecryptionRequestTime adm + s.cooldownSeconds < MAXU)
    (hdec : s.lastDecryptionRequestTime adm + s.cooldownSeconds ≤ ts) :
    (setCooldownSeconds adm 0 s =
      .error (.RevertMsg (r"Cooldown must be positive"))) ∧
    (∀ encC encE, s.currentBatch.isOpen = true → env.isInit encC = false →
      submitData env prov ts s encC encE =
        .error (.RevertMsg (r"Congestion score not initialized"))) ∧
    (s.currentBatch.isOpen = false → s.currentBatch.submissionCount = 0 →
      requestBatchDecryption env adm ts s =
        .error (.RevertMsg (r"No data to decrypt"))) ∧
    (myCallback env sender s 0 cl pf =
      .error (.RevertMsg (r"Invalid request ID"))) := by
  subst hown
  refine ⟨?_, fun encC encE hopen hinit => ?_, fun hopen hcount => ?_, ?_⟩
  · simp [setCooldownSeconds]
  · simp [submitData, hprov, hp, hopen, hinit, not_lt.mpr hsub,
      not_le.mpr hsubov]
  · simp [requestBatchDecryption, hp, hopen, hcount, not_lt.mpr hdec,
      not_le.mpr hdecov]
  · simp [myCallback]

/-- Witness for C8: instantiated on the open-batch fixture with an
environment that treats every handle as uninitialized. -/
theorem untypedStringReverts_witness :
    setCooldownSeconds 1 0 wSubS =
      .error (.RevertMsg (r"Cooldown must be positive")) ∧
    submitData wEnvNoInit 3 100 wSubS 4 5 =
      .error (.RevertMsg (r"Congestion score not initialized")) ∧
    myCallback wEnvNoInit 9 wSubS 0 [] [] =
      .error (.RevertMsg (r"Invalid request ID")) := by
  have h := untypedStringReverts wEnvNoInit 1 3 9 100 wSubS [] []
    rfl rfl rfl (by decide) (by decide) (by decide) (by decide)
  exact ⟨h.1, h.2.1 4 5 rfl rfl, h.2.2.2⟩

/-- C7: with the other guards passing, a principal whose last admitted
action of a class was recorded at `t` is rejected with `CooldownActive`
at every `ts < t + cooldownSeconds` and admitted by the rate limiter at
`ts = t + cooldownSeconds`, for both the submission class (`submitData`)
and the decryption class (`requestBatchDecryption`); the
submission-class last-action time is set to the call's timestamp exactly
when the whole submission succeeds (a revert produces no state, so
nothing is recorded on rejection). -/
theorem submissionCooldown (env : Env) (sender : Address) (t c : Nat)
    (s : ContractState)
    (hprov : s.isProvider sender = true) (hp : s.paused = false)
    (hlast : s.lastSubmissionTime sender = t) (hc : s.cooldownSeconds = c)
    (hov : t + c < MAXU) :
    (∀ ts encC encE, ts < t + c →
      submitData env sender ts s encC encE = .error Err.CooldownActive) ∧
    (∀ encC encE,
      submitData env sender (t + c) s encC encE ≠
        .error Err.CooldownActive) ∧
    (∀ ts encC encE s1 evs,
      submitData env sender ts s encC encE = .ok (s1, evs) →
      s1.lastSubmissionTime sender = ts) ∧
    (∀ (sd : ContractState) (ts : Nat), sender = sd.owner →
      sd.paused = false → sd.lastDecryptionRequestTime sender = t →
      sd.cooldownSeconds = c → ts < t + c →
      requestBatchDecryption env sender ts sd = .error Err.CooldownActive) ∧
    (∀ (sd : ContractState), sender = sd.owner → sd.paused = false →
      sd.lastDecryptionRequestTime sender = t → sd.cooldownSeconds = c →
      requestBatchDecryption env sender (t + c) sd ≠
        .error Err.CooldownActive) := by
  refine ⟨fun ts encC encE hts => ?_, fun encC encE => ?_,
    fun ts encC encE s1 evs h => ?_,
    fun sd ts hdown hdp hdlast hdc hts => ?_,
    fun sd hdown hdp hdlast hdc => ?_⟩
  · simp [submitData, hprov, hp, hlast, hc, hts, not_le.mpr hov]
  · intro hcon
    simp only [submitData, hprov, hp, hlast, hc] at hcon
    repeat' split at hcon
    all_goals simp_all
  · simp only [submitData] at h
    repeat' split at h
    all_goals cases h
    simp [upd]
  · subst hdown
    simp [requestBatchDecryption, hdp, hdlast, hdc, hts, not_le.mpr hov]
  · subst hdown
    intro hcon
    simp only [requestBatchDecryption, hdp, hdlast, hdc] at hcon
    repeat' split at hcon
    all_goals simp_all

/-- Witness for C7: provider 3 last submitted at 40 with a 60-second
cooldown; a submission at 99 is rejected `CooldownActive` and one at 100
is not rate-limited. -/
theorem submissionCooldown_witness :
    submitData wEnv 3 99 wSubS 4 5 = .error Err.CooldownActive ∧
    submitData wEnv 3 100 wSubS 4 5 ≠ .error Err.CooldownActive := by
  have h := submissionCooldown wEnv 3 40 60 wSubS rfl rfl rfl rfl (by decide)
  exact ⟨h.1 99 4 5 (by decide), h.2.1 4 5⟩

/-- What a successful `openBatch` produces: the same storage with a fresh
open batch of incremented id, and the notification list that closes the
old batch first exactly when it was open. -/
theorem openBatch_ok (sender : Address) (s s1 : ContractState)
    (e1 : List Event) (h : openBatch sender s = .ok (s1, e1)) :
    s1 = { s with currentBatch := ⟨s.currentBatch.id + 1, true, 0, 0, 0⟩ } ∧
    e1 = (if s.currentBatch.isOpen then [Event.BatchClosed s.currentBatch.id]
          else []) ++ [Event.BatchOpened (s.currentBatch.id + 1)] := by
  simp only [openBatch] at h
  split at h
  · cases h
  · split at h
    · cases h
    · split at h
      · cases h
      · cases h; exact ⟨rfl, rfl⟩

/-- C5 counterexample: from the freshly deployed state, whose batch is
closed, the first `openBatch` emits only `BatchOpened 2` — no
`BatchClosed` — so two consecutive opens produce three notifications, not
two `BatchClosed`/`BatchOpened` pairs. -/
theorem openBatchTwiceFromClosed_cex :
    openBatch 1 (initialState 1) = .ok (wOpen1, [Event.BatchOpened 2]) ∧
    openBatch 1 wOpen1 =
      .ok (wOpen2, [Event.BatchClosed 2, Event.BatchOpened 3]) := ⟨rfl, rfl⟩

/-- C5 (amended): two consecutive `openBatch` calls produce two
`BatchClosed`/`BatchOpened` pairs when the current batch is open at the
start; when it is closed, the first call emits only `BatchOpened` and the
second the full pair. The batch id increments by exactly 1 on each open,
`submissionCount` resets to 0 each time, and whenever the batch is open
`BatchClosed(currentId)` precedes `BatchOpened(newId)`. -/
theorem openBatchTwice (sender : Address) (s s1 s2 : ContractState)
    (e1 e2 : List Event)
    (h1 : openBatch sender s = .ok (s1, e1))
    (h2 : openBatch sender s1 = .ok (s2, e2)) :
    s1.currentBatch.id = s.currentBatch.id + 1 ∧
    s2.currentBatch.id = s.currentBatch.id + 2 ∧
    s1.currentBatch.submissionCount = 0 ∧
    s2.currentBatch.submissionCount = 0 ∧
    e1 = (if s.currentBatch.isOpen then [Event.BatchClosed s.currentBatch.id]
          else []) ++ [Event.BatchOpened (s.currentBatch.id + 1)] ∧
    e2 = [Event.BatchClosed (s.currentBatch.id + 1),
          Event.BatchOpened (s.currentBatch.id + 2)] := by
  obtain ⟨hs1, he1⟩ := openBatch_ok sender s s1 e1 h1
  obtain ⟨hs2, he2⟩ := openBatch_ok sender s1 s2 e2 h2
  subst hs1 hs2 he1 he2
  refine ⟨rfl, by simp, rfl, rfl, rfl, ?_⟩
  simp

/-- Witness for C5: from the open batch 2 of `wOpenS`, two opens yield the
pairs (`BatchClosed 2`, `BatchOpened 3`) and (`BatchClosed 3`,
`BatchOpened 4`), with ids 3 then 4 and zeroed counters. -/
theorem openBatchTwice_witness :
    wOpenA.currentBatch.id = 3 ∧ wOpenB.currentBatch.id = 4 ∧
    wOpenA.currentBatch.submissionCount = 0 ∧
    wOpenB.currentBatch.submissionCount = 0 ∧
    [Event.BatchClosed 2, Event.BatchOpened 3] =
      (if wOpenS.currentBatch.isOpen then [Event.BatchClosed 2] else []) ++
        [Event.BatchOpened 3] ∧
    [Event.BatchClosed 3, Event.BatchOpened 4] =
      [Event.BatchClosed 3, Event.BatchOpened 4] := by
  have h := openBatchTwice 1 wOpenS wOpenA wOpenB
    [Event.BatchClosed 2, Event.BatchOpened 3]
    [Event.BatchClosed 3, Event.BatchOpened 4] rfl rfl
  simpa [wOpenS, wOpenA, wOpenB, initialState] using h

/-- C6 counterexample: on the freshly deployed state (batch 1 closed,
zero submissions) the owner's decryption request reverts with the generic
string revert "No data to decrypt"; the contract declares no
`NoDataToDecrypt` typed error. -/
theorem requestNoData_cex :
    requestBatchDecryption wEnv 1 100 (initialState 1) =
      .error (.RevertMsg (r"No data to decrypt")) := rfl

/-- C6 (amended): `requestBatchDecryption` by the administrator, not
paused and past the decryption cooldown, fails `BatchNotOpen` while the
current batch is still open and fails with the string revert
"No data to decrypt" when the closed batch has `submissionCount = 0`;
otherwise it issues exactly one decryption request (a single
`DecryptionRequested` notification) and stores a new unprocessed
`DecryptionContext` for the oracle's request id. -/
theorem requestDecryptionOutcomes (env : Env) (sender : Address) (ts : Nat)
    (s : ContractState)
    (hown : sender = s.owner) (hp : s.paused = false)
    (hov : s.lastDecryptionRequestTime sender + s.cooldownSeconds < MAXU)
    (hcool : s.lastDecryptionRequestTime sender + s.cooldownSeconds ≤ ts) :
    (s.currentBatch.isOpen = true →
      requestBatchDecryption env sender ts s = .error Err.BatchNotOpen) ∧
    (s.currentBatch.isOpen = false → s.currentBatch.submissionCount = 0 →
      requestBatchDecryption env sender ts s =
        .error (.RevertMsg (r"No data to decrypt"))) ∧
    (s.currentBatch.isOpen = false → s.currentBatch.submissionCount ≠ 0 →
      requestBatchDecryption env sender ts s =
        .ok (stateAfterRequest env sender ts s,
             [Event.DecryptionRequested (env.reqDecr (handlesOf s))
               s.currentBatch.id]) ∧
      (stateAfterRequest env sender ts s).decryptionContexts
          (env.reqDecr (handlesOf s)) =
        { batchId := s.currentBatch.id,
          stateHash := hashCiphertexts env.thisAddr (handlesOf s),
          processed := false }) := by
  subst hown
  have hnp : ¬ s.lastDecryptionRequestTime s.owner + s.cooldownSeconds ≥ MAXU :=
    not_le.mpr hov
  have hnc : ¬ ts < s.lastDecryptionRequestTime s.owner + s.cooldownSeconds :=
    not_lt.mpr hcool
  refine ⟨fun hopen => ?_, fun hopen hcount => ?_, fun hopen hcount => ⟨?_, ?_⟩⟩
  · simp [requestBatchDecryption, hp, hopen, hnp, hnc]
  · simp [requestBatchDecryption, hp, hopen, hcount, hnp, hnc]
  · simp [requestBatchDecryption, hp, hopen, hcount, hnp, hnc,
      stateAfterRequest, handlesOf]
  · simp [stateAfterRequest, upd]

/-- Witness for C6: on the closed non-empty batch of `wS0` the request
succeeds with a single `DecryptionRequested 5 2` notification and the
fresh unprocessed context for request id 5. -/
theorem requestDecryptionOutcomes_witness :
    requestBatchDecryption wEnv 1 100 wS0 =
      .ok (stateAfterRequest wEnv 1 100 wS0,
           [Event.DecryptionRequested 5 2]) ∧
    (stateAfterRequest wEnv 1 100 wS0).decryptionContexts 5 =
      { batchId := 2, stateHash := hashCiphertexts 7 [10, 20],
        processed := false } := by
  have h := requestDecryptionOutcomes wEnv 1 100 wS0 rfl rfl
    (by decide) (by decide)
  simpa using h.2.2 rfl (by decide)

/-- C3 counterexample: request id 7 was never issued on the freshly
deployed state, yet `myCallback` reverts with `InvalidBatchId` — the
contract declares no `UnknownRequest` error at all (a zero request id is
rejected even earlier by the string revert "Invalid request ID"). -/
theorem unknownRequest_cex :
    myCallback wEnv 9 (initialState 1) 7 [] [] =
      .error Err.InvalidBatchId := rfl

/-- C3 (amended): for a request id with no stored `DecryptionContext`
(the mapping still holds the zero default) and a nonzero current batch id
(always true, since ids start at 1), `myCallback` fails with the string
revert "Invalid request ID" when the request id is 0 and with
`InvalidBatchId` otherwise, because the default context's `batchId` 0 can
never match; no `UnknownRequest` error exists. -/
theorem unknownRequestOutcome (env : Env) (sender : Address)
    (s : ContractState) (rid : Nat) (cl pf : Bytes)
    (hnone : s.decryptionContexts rid = emptyContext)
    (hid : s.currentBatch.id ≠ 0) :
    myCallback env sender s rid cl pf =
      .error (if rid = 0 then .RevertMsg (r"Invalid request ID")
              else Err.InvalidBatchId) := by
  by_cases h0 : rid = 0
  · simp [myCallback, h0]
  · simp [myCallback, h0, hnone, emptyContext, hid]

/-- Witness for C3: instantiated at the never-issued request id 6 on the
freshly deployed state. -/
theorem unknownRequestOutcome_witness :
    myCallback wEnv 9 (initialState 1) 6 [] [] =
      .error Err.InvalidBatchId := by
  simpa using unknownRequestOutcome wEnv 9 (initialState 1) 6 [] []
    rfl (by decide)

/-- C4 counterexample: the end-user address 999 — not a decryption
oracle — calls `myCallback` with a proof the verifier accepts and the
call fully succeeds, marking the context processed; the callback is not
restricted to the oracle. -/
theorem callbackStranger_cex :
    myCallback wEnv 999 wS1 5 [] [] =
      .ok (wS1Proc, [Event.DecryptionCompleted 5 2 10 6]) := rfl

/-- C4 (amended): `myCallback` has no caller restriction whatsoever: it
never inspects `msg.sender`, so its outcome is identical for every
caller; callbacks are authenticated only by `FHE.checkSignatures`, whose
rejection yields `InvalidProof` regardless of who called. -/
theorem callbackCallerIndependent (env : Env) (a b : Address)
    (s : ContractState) (rid : Nat) (cl pf : Bytes) :
    myCallback env a s rid cl pf = myCallback env b s rid cl pf := rfl

/-- What a successful `myCallback` requires and produces: a nonzero
request id, a not-yet-processed context, and the same storage with that
context's `processed` flag set. -/
theorem myCallback_ok (env : Env) (sender : Address) (s s1 : ContractState)
    (evs : List Event) (rid : Nat) (cl pf : Bytes)
    (h : myCallback env sender s rid cl pf = .ok (s1, evs)) :
    rid ≠ 0 ∧
    (s.decryptionContexts rid).processed = false ∧
    s1 = { s with decryptionContexts := (upd s.decryptionContexts rid
      { s.decryptionContexts rid with processed := true }) } := by
  simp only [myCallback] at h
  split at h
  next h0 => cases h
  next h0 =>
    split at h
    next hproc => cases h
    next hproc =>
      split at h
      next hbid => cases h
      next hbid =>
        split at h
        next hhash => cases h
        next hhash =>
          split at h
          next hsig =>
            cases h
            exact ⟨h0, by simpa using hproc, rfl⟩
          next hsig => cases h

/-- C2: the `processed` flag of the context stored for `requestId` moves
from false to true on the first successful `myCallback`, and any second
callback for the same `requestId` — with any caller, cleartexts, proof or
oracle behavior — reverts with `ReplayAttempt`, which produces no state
(a revert rolls everything back). -/
theorem processedFlipsOnce (env env2 : Env) (sender sender2 : Address)
    (s s1 : ContractState) (evs : List Event) (rid : Nat)
    (cl pf cl2 pf2 : Bytes)
    (h : myCallback env sender s rid cl pf = .ok (s1, evs)) :
    (s.decryptionContexts rid).processed = false ∧
    (s1.decryptionContexts rid).processed = true ∧
    myCallback env2 sender2 s1 rid cl2 pf2 = .error Err.ReplayAttempt := by
  obtain ⟨h0, hproc, hs1⟩ := myCallback_ok env sender s s1 evs rid cl pf h
  subst hs1
  refine ⟨hproc, by simp [upd], ?_⟩
  simp [myCallback, h0, upd]

/-- Witness for C2: on `wS1` the callback for request 5 succeeds flipping
`processed`, and replaying request 5 on the resulting state fails
`ReplayAttempt`. -/
theorem processedFlipsOnce_witness :
    (wS1.decryptionContexts 5).processed = false ∧
    (wS1Proc.decryptionContexts 5).processed = true ∧
    myCallback wEnv 8 wS1Proc 5 [1] [] = .error Err.ReplayAttempt := by
  exact processedFlipsOnce wEnv wEnv 2 8 wS1 wS1Proc
    [Event.DecryptionCompleted 5 2 10 6] 5 [] [] [1] [] rfl

/-- What a successful `requestBatchDecryption` produces: the state of
`stateAfterRequest` and a single `DecryptionRequested` notification. -/
theorem requestBatchDecryption_ok (env : Env) (sender : Address) (ts : Nat)
    (s s1 : ContractState) (evs : List Event)
    (h : requestBatchDecryption env sender ts s = .ok (s1, evs)) :
    s1 = stateAfterRequest env sender ts s ∧
    evs = [Event.DecryptionRequested (env.reqDecr (handlesOf s))
            s.currentBatch.id] := by
  simp only [requestBatchDecryption] at h
  repeat' split at h
  all_goals cases h
  exact ⟨rfl, rfl⟩

/-- C1: at request time the coordinator stores, for the oracle's request
id, a context whose `stateHash` is the hash of the two frozen aggregate
handles together with the contract's own identity; and whenever the
aggregates at callback time differ from the frozen ones (the other guards
passing), `myCallback` recomputes the hash over the current handles and
rejects with `StateMismatch`. -/
theorem stateHashBinding (env : Env) (sender : Address) (ts : Nat)
    (s s1 : ContractState) (evs : List Event)
    (hreq : requestBatchDecryption env sender ts s = .ok (s1, evs)) :
    s1.decryptionContexts (env.reqDecr (handlesOf s)) =
      { batchId := s.currentBatch.id,
        stateHash := hashCiphertexts env.thisAddr (handlesOf s),
        processed := false } ∧
    (∀ (sender2 : Address) (s2 : ContractState) (cl pf : Bytes),
      env.reqDecr (handlesOf s) ≠ 0 →
      s2.decryptionContexts (env.reqDecr (handlesOf s)) =
        s1.decryptionContexts (env.reqDecr (handlesOf s)) →
      s2.currentBatch.id = s.currentBatch.id →
      handlesOf s2 ≠ handlesOf s →
      myCallback env sender2 s2 (env.reqDecr (handlesOf s)) cl pf =
        .error Err.StateMismatch) := by
  obtain ⟨hs1, -⟩ := requestBatchDecryption_ok env sender ts s s1 evs hreq
  subst hs1
  have hctx : (stateAfterRequest env sender ts s).decryptionContexts
      (env.reqDecr (handlesOf s)) =
      { batchId := s.currentBatch.id,
        stateHash := hashCiphertexts env.thisAddr (handlesOf s),
        processed := false } := by
    simp [stateAfterRequest, upd]
  refine ⟨hctx, ?_⟩
  intro sender2 s2 cl pf hrid hctx2 hbid hmut
  rw [hctx] at hctx2
  simp only [handlesOf, hashCiphertexts] at hrid hctx2 hmut
  simp [myCallback, hrid, hctx2, hbid, hashCiphertexts, handlesOf, hmut]

/-- Witness for C1: after the concrete request on `wS0` (stored hash over
handles 10, 20 and instance address 7), tampering the congestion
aggregate to 11 makes the callback fail `StateMismatch`. -/
theorem stateHashBinding_witness :
    wS1.decryptionContexts 5 =
      { batchId := 2, stateHash := hashCiphertexts 7 [10, 20],
        processed := false } ∧
    myCallback wEnv 9 wS1Mut 5 [] [] = .error Err.StateMismatch := by
  have h := stateHashBinding wEnv 1 100 wS0 wS1
    [Event.DecryptionRequested 5 2] rfl
  exact ⟨h.1, h.2 9 wS1Mut [] [] (by decide) rfl rfl (by decide)⟩

end TrafficDePIN
